import Mathlib

/-!
Verification development for the sysinfo snapshot/refresh/export core.

The repository ships the C API surface (src/sysinfo.h) and example drivers;
the engine behind the API lives outside the repository, so the definitions
below are modelled from the specification's description of the
snapshot/refresh core (spec.md §2–§4, §7–§8) and keep the header's names.
Machine integers are modelled as Nat, percentages as exact rationals.
-/

namespace Sysinfo

/-- Modelled from the spec: `CpuSampler` — two-slot ring of {busy, total}
tick counts per logical core (spec §3).  `last` is the most recent sample,
`prev` the one before it; both are `none` before any sample was taken. -/
structure CpuSampler where
  last : Option (Nat × Nat)
  prev : Option (Nat × Nat)
deriving DecidableEq

/-- Modelled from the spec: a sampler with no history (cold CPU history). -/
def CpuSampler.cold : CpuSampler := ⟨none, none⟩

/-- Modelled from the spec: taking a new {busy, total} sample shifts the
two-slot ring. -/
def CpuSampler.sample (s : CpuSampler) (busy total : Nat) : CpuSampler :=
  { last := some (busy, total), prev := s.last }

/-- Modelled from the spec: clamping a percentage to the interval [0, 100]. -/
def clampPercent (x : ℚ) : ℚ := max 0 (min 100 x)

/-- Modelled from the spec: usage % = `(busy₁ − busy₀) / (total₁ − total₀) × 100`,
clamped to [0, 100]; on first sample (no prior) usage is 0, and a zero total
delta yields 0 rather than a division by zero (spec §3, §8). -/
def CpuSampler.usage (s : CpuSampler) : ℚ :=
  match s.last, s.prev with
  | some (b1, t1), some (b0, t0) =>
      if (t1 : ℤ) - (t0 : ℤ) = 0 then 0
      else clampPercent (100 * (((b1 : ℚ) - (b0 : ℚ)) / ((t1 : ℚ) - (t0 : ℚ))))
  | _, _ => 0

/-- Modelled from the spec: `ProcessInfo` — per-process attribute bag plus its
own CpuSampler state (spec §3).  `identity` is the OS-level identity token
(e.g. start time) by which the engine distinguishes a reused pid from the
process that previously held it. -/
structure ProcessInfo where
  pid : Nat
  parent : Option Nat
  cpu : CpuSampler
  memory : Nat
  virtualMemory : Nat
  exePath : Option String
  rootDir : Option String
  cwd : Option String
  identity : Nat
deriving DecidableEq

/-- Modelled from the spec: one entry of the (mocked) OS process enumeration:
everything the OS reports about one live process in one sample. -/
structure OsProc where
  pid : Nat
  identity : Nat
  parent : Option Nat
  memory : Nat
  virtualMemory : Nat
  exePath : Option String
  rootDir : Option String
  cwd : Option String
  busy : Nat
  total : Nat
deriving DecidableEq

/-- Modelled from the spec: a brand-new `ProcessInfo` for a newly seen pid;
its CPU history starts cold and then receives the current sample. -/
def freshInfo (op : OsProc) : ProcessInfo :=
  { pid := op.pid
    parent := op.parent
    cpu := CpuSampler.cold.sample op.busy op.total
    memory := op.memory
    virtualMemory := op.virtualMemory
    exePath := op.exePath
    rootDir := op.rootDir
    cwd := op.cwd
    identity := op.identity }

/-- Modelled from the spec: in-place update of an existing `ProcessInfo`:
memory/cpu/path fields are overwritten from the OS sample, the pid and the
CPU-rate history are preserved (spec §4.2). -/
def updateInfo (p : ProcessInfo) (op : OsProc) : ProcessInfo :=
  { pid := p.pid
    parent := op.parent
    cpu := p.cpu.sample op.busy op.total
    memory := op.memory
    virtualMemory := op.virtualMemory
    exePath := op.exePath
    rootDir := op.rootDir
    cwd := op.cwd
    identity := p.identity }

/-- Modelled from the spec: the per-pid refresh step of the ProcessRegistry:
an already known pid with the same OS identity is updated in place; a pid
that is new, or whose OS identity changed (pid reuse after exit), gets a
brand-new `ProcessInfo` with cold CPU history (spec §3 invariant, §4.2). -/
def refreshOne (reg : List ProcessInfo) (op : OsProc) : ProcessInfo :=
  match reg.find? (fun p => p.pid == op.pid) with
  | some p => if p.identity == op.identity then updateInfo p op else freshInfo op
  | none => freshInfo op

/-- Modelled from the spec: refresh of the whole ProcessRegistry against one
OS enumeration: the new registry holds exactly one entry per enumerated
process, so pids no longer present are dropped (spec §4.2). -/
def refreshRegistry (reg : List ProcessInfo) (sample : List OsProc) :
    List ProcessInfo :=
  sample.map (refreshOne reg)

/-- Modelled from the spec: one disk entry, keyed by stable device name
(spec §3). -/
structure DiskEntry where
  name : String
  readBytes : Nat
  writtenBytes : Nat
  availableSpace : Nat
deriving DecidableEq

/-- Modelled from the spec: one network-interface entry, keyed by stable
interface name (spec §3). -/
structure NetworkEntry where
  name : String
  received : Nat
  transmitted : Nat
deriving DecidableEq

/-- Modelled from the spec: cgroup-derived limits, present only when running
under a container cgroup (spec §3, §4.7). -/
structure CgroupLimits where
  totalMemory : Nat
  freeMemory : Nat
  freeSwap : Nat
  rss : Nat
deriving DecidableEq

/-- Modelled from the spec: one raw memory/swap sample as reported by the OS
(spec §4.2, refresh-memory). -/
structure MemSample where
  totalMemory : Nat
  freeMemory : Nat
  usedMemory : Nat
  totalSwap : Nat
  freeSwap : Nat
  usedSwap : Nat
deriving DecidableEq

/-- Modelled from the spec: `SystemSnapshot` — the aggregate root: global
memory/swap counters, per-core samplers, the ProcessRegistry, disk and
network entries, the optional cgroup limits and the CPU brand string
(spec §2, §3). -/
structure SystemSnapshot where
  totalMemory : Nat
  freeMemory : Nat
  usedMemory : Nat
  totalSwap : Nat
  freeSwap : Nat
  usedSwap : Nat
  cpus : List CpuSampler
  processes : List ProcessInfo
  disks : List DiskEntry
  networks : List NetworkEntry
  cgroup : Option CgroupLimits
  cpuBrand : String
deriving DecidableEq

/-- Modelled from the spec: `init()` allocates an empty SystemSnapshot
(spec §4.1): no processes, no samplers, no device entries. -/
def sysinfo_init : SystemSnapshot :=
  { totalMemory := 0, freeMemory := 0, usedMemory := 0
    totalSwap := 0, freeSwap := 0, usedSwap := 0
    cpus := [], processes := [], disks := [], networks := []
    cgroup := none, cpuBrand := "" }

/-- Modelled from the spec: refresh-memory re-reads the memory/swap triples;
a failed OS read (`none`) leaves the previous values intact (spec §4.2, §7). -/
def sysinfo_refresh_memory (s : SystemSnapshot) (r : Option MemSample) :
    SystemSnapshot :=
  match r with
  | none => s
  | some m =>
      { s with
        totalMemory := m.totalMemory, freeMemory := m.freeMemory
        usedMemory := m.usedMemory, totalSwap := m.totalSwap
        freeSwap := m.freeSwap, usedSwap := m.usedSwap }

/-- Modelled from the spec: per-core sampler update against the fresh
per-core tick readings: existing cores take a new sample, newly seen cores
start cold, vanished cores are dropped. -/
def updateSamplers : List CpuSampler → List (Nat × Nat) → List CpuSampler
  | _, [] => []
  | [], bt :: rest => CpuSampler.cold.sample bt.1 bt.2 :: updateSamplers [] rest
  | s :: ss, bt :: rest => s.sample bt.1 bt.2 :: updateSamplers ss rest

/-- Modelled from the spec: refresh-cpu re-samples per-core tick counters; a
failed OS read (`none`) leaves the previous samplers intact (spec §4.2, §7). -/
def sysinfo_refresh_cpu (s : SystemSnapshot) (r : Option (List (Nat × Nat))) :
    SystemSnapshot :=
  match r with
  | none => s
  | some ticks => { s with cpus := updateSamplers s.cpus ticks }

/-- Modelled from the spec: refresh-processes re-enumerates the OS process
table and diffs it against the registry; a failed enumeration (`none`)
leaves the previous registry intact (spec §4.2, §7). -/
def sysinfo_refresh_processes (s : SystemSnapshot) (r : Option (List OsProc)) :
    SystemSnapshot :=
  match r with
  | none => s
  | some sample => { s with processes := refreshRegistry s.processes sample }

/-- Modelled from the spec: refresh-process(pid) — the same update logic
restricted to one pid, reading the live OS table `os`; when the pid is not a
live OS process this is a no-op that inserts no empty record (spec §4.2). -/
def sysinfo_refresh_process (s : SystemSnapshot) (os : List OsProc)
    (pid : Nat) : SystemSnapshot :=
  match os.find? (fun op => op.pid == pid) with
  | none => s
  | some op =>
      if s.processes.any (fun p => p.pid == pid) then
        { s with
          processes := s.processes.map
            (fun p => if p.pid == pid then refreshOne s.processes op else p) }
      else
        { s with processes := s.processes ++ [freshInfo op] }

/-- Modelled from the spec: refresh-disks re-samples the disk entries; a
failed OS read (`none`) leaves the previous entries intact (spec §4.2, §7). -/
def sysinfo_disks_refresh (s : SystemSnapshot) (r : Option (List DiskEntry)) :
    SystemSnapshot :=
  match r with
  | none => s
  | some ds => { s with disks := ds }

/-- Modelled from the spec: refresh-networks re-samples the interface
entries; a failed OS read (`none`) leaves the previous entries intact
(spec §4.2, §7). -/
def sysinfo_networks_refresh (s : SystemSnapshot)
    (r : Option (List NetworkEntry)) : SystemSnapshot :=
  match r with
  | none => s
  | some ns => { s with networks := ns }

/-- Modelled from the spec: refresh-all invokes the subsystem refreshes in
the defined order: memory, then cpu, then processes, then disks, then
networks (spec §4.2). -/
def sysinfo_refresh_all (s : SystemSnapshot) (mem : Option MemSample)
    (cpu : Option (List (Nat × Nat))) (procs : Option (List OsProc))
    (disks : Option (List DiskEntry)) (nets : Option (List NetworkEntry)) :
    SystemSnapshot :=
  sysinfo_networks_refresh
    (sysinfo_disks_refresh
      (sysinfo_refresh_processes
        (sysinfo_refresh_cpu (sysinfo_refresh_memory s mem) cpu) procs)
      disks)
    nets

/-- Modelled from the spec: process-by-pid lookup; `none` is the explicit
"not found" sentinel (spec §4.5). -/
def sysinfo_process_by_pid (s : SystemSnapshot) (pid : Nat) :
    Option ProcessInfo :=
  s.processes.find? (fun p => p.pid == pid)

/-- Accessor from the header: the pid of a process handle. -/
def sysinfo_process_pid (p : ProcessInfo) : Nat := p.pid

/-- Accessor from the header: CPU usage percentage of a process handle. -/
def sysinfo_process_cpu_usage (p : ProcessInfo) : ℚ := p.cpu.usage

/-- Modelled from the spec: the per-core usage array returned by
`sysinfo_cpus_usage` (spec §4.4). -/
def sysinfo_cpus_usage (s : SystemSnapshot) : List ℚ :=
  s.cpus.map CpuSampler.usage

/-- Modelled from the spec: the caller's four out-parameters of
`sysinfo_cgroup_limits` before the call. -/
structure CgroupOut where
  totalMemory : Nat
  freeMemory : Nat
  freeSwap : Nat
  rss : Nat
deriving DecidableEq

/-- Modelled from the spec: the cgroup-limits accessor returns a boolean
availability flag and writes the four out-parameters only on success,
leaving them untouched when cgroup data is unavailable (spec §4.7). -/
def sysinfo_cgroup_limits (s : SystemSnapshot) (out : CgroupOut) :
    Bool × CgroupOut :=
  match s.cgroup with
  | none => (false, out)
  | some c => (true, ⟨c.totalMemory, c.freeMemory, c.freeSwap, c.rss⟩)

/-- Modelled from the spec: the enumeration loop of `sysinfo_processes`: the
callback is invoked once per entry with (pid, borrowed handle, user-data),
enumeration stops the first time the callback's continue-flag is false, and
the result is the number of entries actually visited together with the final
user-data (spec §4.3). -/
def processesGo {σ : Type} (fn : Nat → ProcessInfo → σ → Bool × σ) :
    List ProcessInfo → σ → Nat × σ
  | [], d => (0, d)
  | p :: rest, d =>
      match fn (sysinfo_process_pid p) p d with
      | (true, d') =>
          let r := processesGo fn rest d'
          (r.1 + 1, r.2)
      | (false, d') => (1, d')

/-- Modelled from the spec: enumerate-processes over the snapshot's registry
(spec §4.3). -/
def sysinfo_processes {σ : Type} (s : SystemSnapshot)
    (fn : Nat → ProcessInfo → σ → Bool × σ) (d : σ) : Nat × σ :=
  processesGo fn s.processes d

/-- The continue-flags the callback would return along the registry if the
enumeration never stopped: used to speak about "the k-th invocation" of a
callback.  The actual enumeration agrees with this list up to and including
its first `false`. -/
def enumFlags {σ : Type} (fn : Nat → ProcessInfo → σ → Bool × σ) :
    List ProcessInfo → σ → List Bool
  | [], _ => []
  | p :: rest, d =>
      match fn (sysinfo_process_pid p) p d with
      | (c, d') => c :: enumFlags fn rest d'

/-- The (pid, handle) argument pairs actually passed to the callback during
one run of enumerate-processes, in call order. -/
def enumCalls {σ : Type} (fn : Nat → ProcessInfo → σ → Bool × σ) :
    List ProcessInfo → σ → List (Nat × ProcessInfo)
  | [], _ => []
  | p :: rest, d =>
      match fn (sysinfo_process_pid p) p d with
      | (true, d') => (sysinfo_process_pid p, p) :: enumCalls fn rest d'
      | (false, _) => [(sysinfo_process_pid p, p)]

/-- Modelled from the spec: the boundary-owned string heap: each cell is an
exported, caller-owned copy; `none` marks a cell already released by
`sysinfo_rstring_free` (spec §4.6). -/
structure StrHeap where
  cells : List (Nat × Option String)
  nextAddr : Nat
deriving DecidableEq

/-- Reading the exported string stored at address `a`. -/
def StrHeap.lookup (h : StrHeap) (a : Nat) : Option String :=
  match h.cells.find? (fun c => c.1 == a) with
  | some c => c.2
  | none => none

/-- Modelled from the spec: the world visible across the boundary: the
snapshot (if not yet destroyed) plus the heap of exported strings
(spec §4.6, §8). -/
structure World where
  snap : Option SystemSnapshot
  heap : StrHeap
deriving DecidableEq

/-- Modelled from the spec: the string-export call for the CPU brand: it
copies the snapshot's internal text into a fresh boundary-owned cell and
returns the cell's address; without a live snapshot nothing is exported. -/
def sysinfo_cpu_brand (w : World) : World × Option Nat :=
  match w.snap with
  | none => (w, none)
  | some s =>
      ({ w with
          heap :=
            { cells := (w.heap.nextAddr, some s.cpuBrand) :: w.heap.cells
              nextAddr := w.heap.nextAddr + 1 } },
       some w.heap.nextAddr)

/-- Modelled from the spec: a later refresh rewriting the snapshot's
underlying brand field (the mutation the spec's test harness simulates). -/
def setCpuBrand (w : World) (b : String) : World :=
  match w.snap with
  | none => w
  | some s => { w with snap := some { s with cpuBrand := b } }

/-- Modelled from the spec: `destroy(handle)` releases the snapshot and
everything it owns; exported strings are not owned by the snapshot
(spec §4.1, §4.6). -/
def sysinfo_destroy (w : World) : World := { w with snap := none }

/-- Modelled from the spec: the dedicated string-free call releasing one
exported string (spec §4.6). -/
def sysinfo_rstring_free (w : World) (a : Nat) : World :=
  { w with
      heap :=
        { w.heap with
            cells := w.heap.cells.map
              (fun c => if c.1 == a then (c.1, none) else c) } }

/-! ### Example data used by witnesses -/

/-- A concrete registry entry used by the witnesses below. -/
def exampleProc (n : Nat) : ProcessInfo :=
  { pid := n, parent := none, cpu := CpuSampler.cold, memory := 0
    virtualMemory := 0, exePath := none, rootDir := none, cwd := none
    identity := 0 }

/-- A concrete snapshot with three registered processes. -/
def exampleSnap : SystemSnapshot :=
  { sysinfo_init with processes := [exampleProc 1, exampleProc 2, exampleProc 3] }

/-- A concrete OS enumeration entry. -/
def exampleOsProc (n ident : Nat) : OsProc :=
  { pid := n, identity := ident, parent := none, memory := 10
    virtualMemory := 20, exePath := some "/bin/x", rootDir := none
    cwd := none, busy := 5, total := 9 }

/-! ### Helper lemmas -/

/-- The per-pid refresh step always yields an entry carrying the enumerated
pid, whether it is fresh or updated in place. -/
theorem refreshOne_pid (reg : List ProcessInfo) (op : OsProc) :
    (refreshOne reg op).pid = op.pid := by
  unfold refreshOne
  cases h : reg.find? (fun p => p.pid == op.pid) with
  | none => rfl
  | some p =>
      have hp : p.pid = op.pid := by
        have := List.find?_some h
        simpa using this
      by_cases hid : p.identity = op.identity
      · simp [hid, updateInfo, hp]
      · simp [hid, freshInfo]

/-- The refreshed registry's pid sequence is exactly the OS enumeration's
pid sequence. -/
theorem refreshRegistry_pids (reg : List ProcessInfo) (sample : List OsProc) :
    (refreshRegistry reg sample).map ProcessInfo.pid = sample.map OsProc.pid := by
  unfold refreshRegistry
  rw [List.map_map]
  exact List.map_congr_left fun op _ => refreshOne_pid reg op

/-- A sampler that just took its first sample reports 0 usage. -/
theorem usage_cold_sample (b t : Nat) :
    (CpuSampler.cold.sample b t).usage = 0 := rfl

/-- After refreshing an empty sampler array, every reported usage is 0. -/
theorem updateSamplers_nil_usage (ticks : List (Nat × Nat)) (q : ℚ)
    (hq : q ∈ (updateSamplers [] ticks).map CpuSampler.usage) : q = 0 := by
  induction ticks with
  | nil => simp [updateSamplers] at hq
  | cons bt rest ih =>
      simp only [updateSamplers, List.map_cons, List.mem_cons,
        usage_cold_sample] at hq
      rcases hq with h | h
      · exact h
      · exact ih h

/-! ### Claim theorems -/

/-- C1: after refresh-processes, the registry's pids are exactly the pids
reported by the OS enumeration; a pid absent from the enumeration is removed
and its lookup returns the not-found sentinel; a pid unknown to the registry
gets a brand-new `ProcessInfo`, and a pid already present (same OS identity)
is updated in place from the sample, preserving its entry. -/
theorem refresh_processes_exact (s : SystemSnapshot) (sample : List OsProc)
    (pid : Nat) (op₁ op₂ : OsProc) (p : ProcessInfo)
    (h : pid ∉ sample.map OsProc.pid)
    (hnew : s.processes.find? (fun q => q.pid == op₁.pid) = none)
    (hold : s.processes.find? (fun q => q.pid == op₂.pid) = some p)
    (hid : p.identity = op₂.identity) :
    (sysinfo_refresh_processes s (some sample)).processes.map ProcessInfo.pid
        = sample.map OsProc.pid ∧
    sysinfo_process_by_pid (sysinfo_refresh_processes s (some sample)) pid
        = none ∧
    refreshOne s.processes op₁ = freshInfo op₁ ∧
    refreshOne s.processes op₂ = updateInfo p op₂ := by
  have hmap : (refreshRegistry s.processes sample).map ProcessInfo.pid
      = sample.map OsProc.pid := refreshRegistry_pids _ _
  refine ⟨hmap, ?_, ?_, ?_⟩
  · unfold sysinfo_process_by_pid
    rw [List.find?_eq_none]
    intro q hq
    simp only [beq_iff_eq]
    intro he
    have hmem : pid ∈ (refreshRegistry s.processes sample).map ProcessInfo.pid :=
      List.mem_map.mpr ⟨q, hq, he⟩
    rw [hmap] at hmem
    exact h hmem
  · unfold refreshOne
    rw [hnew]
  · unfold refreshOne
    rw [hold]
    simp [hid]

/-- C1 witness. -/
theorem refresh_processes_exact_witness :
    (sysinfo_refresh_processes exampleSnap
        (some [exampleOsProc 1 0])).processes.map ProcessInfo.pid
      = [exampleOsProc 1 0].map OsProc.pid ∧
    sysinfo_process_by_pid
        (sysinfo_refresh_processes exampleSnap (some [exampleOsProc 1 0])) 5
      = none ∧
    refreshOne exampleSnap.processes (exampleOsProc 9 0)
      = freshInfo (exampleOsProc 9 0) ∧
    refreshOne exampleSnap.processes (exampleOsProc 2 0)
      = updateInfo (exampleProc 2) (exampleOsProc 2 0) :=
  refresh_processes_exact exampleSnap [exampleOsProc 1 0] 5
    (exampleOsProc 9 0) (exampleOsProc 2 0) (exampleProc 2)
    (by decide) (by decide) (by decide) rfl

/-- C5: a failed refresh of any subsystem (memory, cpu, processes, disks,
networks) leaves the snapshot — in particular that subsystem's previously
stored values — exactly unchanged, and so does a refresh-all in which every
subsystem's OS read failed. -/
theorem refresh_failed_transactional (s : SystemSnapshot) :
    sysinfo_refresh_memory s none = s ∧
    sysinfo_refresh_cpu s none = s ∧
    sysinfo_refresh_processes s none = s ∧
    sysinfo_disks_refresh s none = s ∧
    sysinfo_networks_refresh s none = s ∧
    sysinfo_refresh_all s none none none none none = s :=
  ⟨rfl, rfl, rfl, rfl, rfl, rfl⟩

/-- C6: process-by-pid returns the not-found sentinel for every pid absent
from the registry, and on an untouched snapshot it returns not-found for
every pid. -/
theorem process_by_pid_not_found (s : SystemSnapshot) (pid pid2 : Nat)
    (h : pid ∉ s.processes.map ProcessInfo.pid) :
    sysinfo_process_by_pid s pid = none ∧
    sysinfo_process_by_pid sysinfo_init pid2 = none := by
  constructor
  · unfold sysinfo_process_by_pid
    rw [List.find?_eq_none]
    intro p hp
    simp only [beq_iff_eq]
    intro he
    exact h (List.mem_map.mpr ⟨p, hp, he⟩)
  · rfl

/-- C6 witness. -/
theorem process_by_pid_not_found_witness :
    sysinfo_process_by_pid exampleSnap 5 = none ∧
    sysinfo_process_by_pid sysinfo_init 7 = none :=
  process_by_pid_not_found exampleSnap 5 7 (by decide)

/-- C8: when no cgroup data is available the accessor returns false and the
four out-parameters are left exactly as they were before the call. -/
theorem cgroup_limits_unavailable (s : SystemSnapshot) (out : CgroupOut)
    (h : s.cgroup = none) : sysinfo_cgroup_limits s out = (false, out) := by
  unfold sysinfo_cgroup_limits
  rw [h]

/-- C8 witness. -/
theorem cgroup_limits_unavailable_witness :
    sysinfo_cgroup_limits sysinfo_init ⟨1, 2, 3, 4⟩ = (false, ⟨1, 2, 3, 4⟩) :=
  cgroup_limits_unavailable sysinfo_init ⟨1, 2, 3, 4⟩ rfl

/-- C2: every usage reported by the first refresh-cpu after init is 0, and
after two successive samples the usage equals `100·Δb/Δt` clamped to
[0, 100], with a zero total delta yielding 0 rather than a
division-by-zero fault. -/
theorem cpus_usage_formula (b0 t0 b1 t1 : Nat) (ticks : List (Nat × Nat))
    (q : ℚ)
    (hq : q ∈ sysinfo_cpus_usage (sysinfo_refresh_cpu sysinfo_init (some ticks))) :
    q = 0 ∧
    CpuSampler.usage ((CpuSampler.cold.sample b0 t0).sample b1 t1) =
      (if (t1 : ℤ) - (t0 : ℤ) = 0 then 0
       else max 0 (min 100 (100 * (((b1 : ℚ) - (b0 : ℚ)) / ((t1 : ℚ) - (t0 : ℚ)))))) := by
  constructor
  · exact updateSamplers_nil_usage ticks q hq
  · rfl

/-- C2 witness. -/
theorem cpus_usage_formula_witness :
    (0 : ℚ) = 0 ∧
    CpuSampler.usage ((CpuSampler.cold.sample 1 2).sample 3 6) =
      (if (6 : ℤ) - (2 : ℤ) = 0 then 0
       else max 0 (min 100 (100 * (((3 : ℚ) - (1 : ℚ)) / ((6 : ℚ) - (2 : ℚ)))))) :=
  cpus_usage_formula 1 2 3 6 [(3, 7), (0, 0)] 0 (by decide)

/-- C3: the in-place update never changes a ProcessInfo's pid, and when the
OS identity behind a pid changed between two samples (pid reuse after exit)
the refresh step produces a brand-new ProcessInfo whose CPU history is
discarded, so its first usage reading is 0. -/
theorem process_pid_immutable_reuse_reset (reg : List ProcessInfo)
    (p q : ProcessInfo) (op : OsProc)
    (hfind : reg.find? (fun r => r.pid == op.pid) = some p)
    (hid : p.identity ≠ op.identity) :
    sysinfo_process_pid (updateInfo q op) = sysinfo_process_pid q ∧
    refreshOne reg op = freshInfo op ∧
    sysinfo_process_cpu_usage (refreshOne reg op) = 0 := by
  have h2 : refreshOne reg op = freshInfo op := by
    unfold refreshOne
    rw [hfind]
    simp [hid]
  refine ⟨rfl, h2, ?_⟩
  rw [h2]
  rfl

/-- C3 witness. -/
theorem process_pid_immutable_reuse_reset_witness :
    sysinfo_process_pid (updateInfo (exampleProc 1) (exampleOsProc 2 1)) =
      sysinfo_process_pid (exampleProc 1) ∧
    refreshOne [exampleProc 2] (exampleOsProc 2 1)
      = freshInfo (exampleOsProc 2 1) ∧
    sysinfo_process_cpu_usage (refreshOne [exampleProc 2] (exampleOsProc 2 1))
      = 0 :=
  process_pid_immutable_reuse_reset [exampleProc 2] (exampleProc 2)
    (exampleProc 1) (exampleOsProc 2 1) (by decide) (by decide)

/-- C7: refresh-process for a pid with no live OS process leaves the
snapshot exactly unchanged — in particular it inserts no empty record — and
the pid's absence is reported through the not-found lookup result. -/
theorem refresh_process_dead_noop (s : SystemSnapshot) (os : List OsProc)
    (pid : Nat) (h : ∀ op ∈ os, op.pid ≠ pid)
    (h2 : pid ∉ s.processes.map ProcessInfo.pid) :
    sysinfo_refresh_process s os pid = s ∧
    sysinfo_process_by_pid (sysinfo_refresh_process s os pid) pid = none := by
  have hfind : os.find? (fun op => op.pid == pid) = none := by
    rw [List.find?_eq_none]
    intro op hop
    simp only [beq_iff_eq]
    exact h op hop
  have hnoop : sysinfo_refresh_process s os pid = s := by
    unfold sysinfo_refresh_process
    rw [hfind]
  refine ⟨hnoop, ?_⟩
  rw [hnoop]
  unfold sysinfo_process_by_pid
  rw [List.find?_eq_none]
  intro p hp
  simp only [beq_iff_eq]
  intro he
  exact h2 (List.mem_map.mpr ⟨p, hp, he⟩)

/-- C7 witness. -/
theorem refresh_process_dead_noop_witness :
    sysinfo_refresh_process exampleSnap [exampleOsProc 1 0] 9 = exampleSnap ∧
    sysinfo_process_by_pid
        (sysinfo_refresh_process exampleSnap [exampleOsProc 1 0] 9) 9 = none :=
  refresh_process_dead_noop exampleSnap [exampleOsProc 1 0] 9
    (by decide) (by decide)

/-- C9: the export call copies the snapshot's text into a fresh
boundary-owned cell; the copy still reads back unchanged after the
underlying field is rewritten by a refresh and after the snapshot is
destroyed, and only the dedicated string-free call releases it. -/
theorem exported_string_survives (w : World) (s : SystemSnapshot) (b : String)
    (hs : w.snap = some s) :
    (sysinfo_cpu_brand w).2 = some w.heap.nextAddr ∧
    StrHeap.lookup (sysinfo_destroy (setCpuBrand (sysinfo_cpu_brand w).1 b)).heap
        w.heap.nextAddr = some s.cpuBrand ∧
    StrHeap.lookup
        (sysinfo_rstring_free
          (sysinfo_destroy (setCpuBrand (sysinfo_cpu_brand w).1 b))
          w.heap.nextAddr).heap
        w.heap.nextAddr = none := by
  unfold sysinfo_cpu_brand
  rw [hs]
  simp [setCpuBrand, sysinfo_destroy, sysinfo_rstring_free, StrHeap.lookup,
    List.find?]

/-- A concrete snapshot carrying a brand string, for the C9 witness. -/
def brandSnap : SystemSnapshot := { sysinfo_init with cpuBrand := "GenuineCpu" }

/-- A concrete world holding `brandSnap` and an empty exported-string heap. -/
def exampleWorld : World := { snap := some brandSnap, heap := ⟨[], 0⟩ }

/-- C9 witness. -/
theorem exported_string_survives_witness :
    (sysinfo_cpu_brand exampleWorld).2 = some exampleWorld.heap.nextAddr ∧
    StrHeap.lookup
        (sysinfo_destroy
          (setCpuBrand (sysinfo_cpu_brand exampleWorld).1 "Other")).heap
        exampleWorld.heap.nextAddr = some brandSnap.cpuBrand ∧
    StrHeap.lookup
        (sysinfo_rstring_free
          (sysinfo_destroy
            (setCpuBrand (sysinfo_cpu_brand exampleWorld).1 "Other"))
          exampleWorld.heap.nextAddr).heap
        exampleWorld.heap.nextAddr = none :=
  exported_string_survives exampleWorld brandSnap "Other" rfl

/-- The enumeration visits at most one entry per registry element. -/
theorem processesGo_le {σ : Type} (fn : Nat → ProcessInfo → σ → Bool × σ)
    (reg : List ProcessInfo) (d : σ) :
    (processesGo fn reg d).1 ≤ reg.length := by
  induction reg generalizing d with
  | nil => simp [processesGo]
  | cons p rest ih =>
      simp only [processesGo]
      rcases hc : fn (sysinfo_process_pid p) p d with ⟨c, d'⟩
      cases c
      · simp [List.length_cons]
      · simpa using ih d'

/-- If the callback returns `true` on the first `k − 1` invocations and
`false` on the k-th, the enumeration visits exactly `k` entries. -/
theorem processesGo_count {σ : Type} (fn : Nat → ProcessInfo → σ → Bool × σ)
    (reg : List ProcessInfo) (d : σ) (k : Nat) (hk : 1 ≤ k)
    (htrue : ∀ i, i + 1 < k → (enumFlags fn reg d).get? i = some true)
    (hfalse : (enumFlags fn reg d).get? (k - 1) = some false) :
    (processesGo fn reg d).1 = k := by
  induction reg generalizing d k with
  | nil => simp [enumFlags] at hfalse
  | cons p rest ih =>
      simp only [enumFlags] at htrue hfalse
      simp only [processesGo]
      rcases hc : fn (sysinfo_process_pid p) p d with ⟨c, d'⟩
      rw [hc] at htrue hfalse
      rcases k with _ | _ | m
      · omega
      · have hc0 : c = false := by simpa using hfalse
        subst hc0
        rfl
      · have hc1 : c = true := by
          have := htrue 0 (by omega)
          simpa using this
        subst hc1
        have htail : (processesGo fn rest d').1 = m + 1 := by
          apply ih d' (m + 1) (by omega)
          · intro i hi
            have := htrue (i + 1) (by omega)
            simpa using this
          · simpa using hfalse
        simpa using htail

/-- C4: enumerate-processes invokes the callback at most once per registry
entry, and whenever the callback returns `true` on its first `k − 1`
invocations and `false` on its k-th, the returned count is exactly `k`, so
no further entry is visited. -/
theorem sysinfo_processes_early_stop {σ : Type} (s : SystemSnapshot)
    (fn : Nat → ProcessInfo → σ → Bool × σ) (d : σ) (k : Nat) (hk : 1 ≤ k)
    (htrue : ∀ i, i + 1 < k → (enumFlags fn s.processes d).get? i = some true)
    (hfalse : (enumFlags fn s.processes d).get? (k - 1) = some false) :
    (sysinfo_processes s fn d).1 = k ∧
    (sysinfo_processes s fn d).1 ≤ s.processes.length :=
  ⟨processesGo_count fn s.processes d k hk htrue hfalse,
   processesGo_le fn s.processes d⟩

/-- C4 witness: on a three-process registry, a callback that continues once
and stops on its second invocation yields a count of exactly 2. -/
theorem sysinfo_processes_early_stop_witness :
    (sysinfo_processes exampleSnap
        (fun _ _ n => (decide (n + 1 < 2), n + 1)) 0).1 = 2 ∧
    (sysinfo_processes exampleSnap
        (fun _ _ n => (decide (n + 1 < 2), n + 1)) 0).1 ≤
      exampleSnap.processes.length :=
  sysinfo_processes_early_stop exampleSnap
    (fun _ _ n => (decide (n + 1 < 2), n + 1)) 0 2 (by omega)
    (by
      intro i hi
      have h0 : i = 0 := by omega
      subst h0
      rfl)
    (by rfl)

/-- Each (pid, handle) pair passed to the callback satisfies
pid = sysinfo_process_pid handle. -/
theorem enumCalls_pid {σ : Type} (fn : Nat → ProcessInfo → σ → Bool × σ)
    (reg : List ProcessInfo) (d : σ) (pr : Nat × ProcessInfo)
    (h : pr ∈ enumCalls fn reg d) : pr.1 = sysinfo_process_pid pr.2 := by
  induction reg generalizing d with
  | nil => simp [enumCalls] at h
  | cons p rest ih =>
      simp only [enumCalls] at h
      rcases hc : fn (sysinfo_process_pid p) p d with ⟨c, d'⟩
      rw [hc] at h
      cases c
      · simp at h
        subst h
        rfl
      · simp at h
        rcases h with h | h
        · subst h
          rfl
        · exact ih d' h

/-- The returned visit count is the number of callback invocations. -/
theorem processesGo_eq_calls_length {σ : Type}
    (fn : Nat → ProcessInfo → σ → Bool × σ) (reg : List ProcessInfo) (d : σ) :
    (processesGo fn reg d).1 = (enumCalls fn reg d).length := by
  induction reg generalizing d with
  | nil => rfl
  | cons p rest ih =>
      simp only [processesGo, enumCalls]
      rcases hc : fn (sysinfo_process_pid p) p d with ⟨c, d'⟩
      cases c
      · simp
      · simpa using ih d'

/-- C10: every pid value handed to the enumeration callback equals
`sysinfo_process_pid` of the handle handed alongside it, and the enumeration
count equals the number of such callback invocations. -/
theorem enum_pid_matches_handle {σ : Type} (s : SystemSnapshot)
    (fn : Nat → ProcessInfo → σ → Bool × σ) (d : σ) (pr : Nat × ProcessInfo)
    (h : pr ∈ enumCalls fn s.processes d) :
    pr.1 = sysinfo_process_pid pr.2 ∧
    (sysinfo_processes s fn d).1 = (enumCalls fn s.processes d).length :=
  ⟨enumCalls_pid fn s.processes d pr h,
   processesGo_eq_calls_length fn s.processes d⟩

/-- C10 witness. -/
theorem enum_pid_matches_handle_witness :
    (1, exampleProc 1).1 = sysinfo_process_pid (1, exampleProc 1).2 ∧
    (sysinfo_processes exampleSnap
        (fun _ _ n => (decide (n + 1 < 2), n + 1)) 0).1 =
      (enumCalls (fun _ _ n => (decide (n + 1 < 2), n + 1))
        exampleSnap.processes 0).length :=
  enum_pid_matches_handle exampleSnap
    (fun _ _ n => (decide (n + 1 < 2), n + 1)) 0 (1, exampleProc 1)
    (by decide)

end Sysinfo
